import Mathlib

/-!
# Cutefish window decoration: shallow embedding and checked properties

Embedding of `src/plugins/decoration/decoration.cpp`, `button.cpp` and
`x11shadow.cpp`.  Toolkit value types (`QRect`, `QSize`, `QMargins`, `QColor`)
are modelled with integer fields; `QRect` keeps the toolkit's edge
representation `(x1, y1, x2, y2)` with `right = x + width - 1`.
Values of type `qreal` are modelled as exact rationals and the conversion
`double -> int` as truncation toward zero.
-/

namespace Cutefish

/-! ## Toolkit value types -/

/-- Colour with integer channels, as built by `QColor(r, g, b, a)`. -/
structure QColor where
  red : Int
  green : Int
  blue : Int
  alpha : Int
  deriving DecidableEq, Repr

/-- The colour `Qt::black`. -/
def Qt.black : QColor := ⟨0, 0, 0, 255⟩

/-- Integer size, `QSize(width, height)`. -/
structure QSize where
  width : Int
  height : Int
  deriving DecidableEq, Repr

/-- Integer point, `QPoint(x, y)`. -/
structure QPoint where
  x : Int
  y : Int
  deriving DecidableEq, Repr

/-- Integer rectangle stored by its edges, as `QRect` does. -/
structure QRect where
  x1 : Int
  y1 : Int
  x2 : Int
  y2 : Int
  deriving DecidableEq, Repr

/-- The constructor `QRect(x, y, width, height)`. -/
def QRect.mk4 (x y w h : Int) : QRect := ⟨x, y, x + w - 1, y + h - 1⟩

/-- Left edge, `QRect::left()`. -/
def QRect.left (r : QRect) : Int := r.x1

/-- Right edge, `QRect::right()`. -/
def QRect.right (r : QRect) : Int := r.x2

/-- Width, `QRect::width()`. -/
def QRect.width (r : QRect) : Int := r.x2 - r.x1 + 1

/-- Height, `QRect::height()`. -/
def QRect.height (r : QRect) : Int := r.y2 - r.y1 + 1

/-- Margins `QMargins(left, top, right, bottom)`. -/
structure QMargins where
  left : Int
  top : Int
  right : Int
  bottom : Int
  deriving DecidableEq, Repr

/-- Rectangle given by position and extent, as `QRectF(x, y, w, h)` stores it. -/
structure QRectF where
  x : Int
  y : Int
  width : Int
  height : Int
  deriving DecidableEq, Repr

/-- Conversion `double -> int` of C++: truncation toward zero.  The operand is
the exact rational value and the result is unbounded, so the model agrees
with the machine whenever the product is exactly representable and in the
range of `int`. -/
def truncToInt (q : ℚ) : Int := if 0 ≤ q then ⌊q⌋ else ⌈q⌉

/-! ## Process-wide shadow state (`decoration.cpp`, lines 48-69 and 255-332) -/

/-- The shadow image painted by `updateShadow`: its pixel size and the rounded
inner rectangle that is outlined and then masked out (the gradient pixels
themselves are not represented). -/
structure ShadowImage where
  size : QSize
  innerRect : QRectF
  deriving DecidableEq, Repr

/-- What `updateShadow` stores in a `KDecoration3::DecorationShadow`. -/
structure DecorationShadow where
  padding : QMargins
  innerShadowRect : QRect
  shadow : ShadowImage
  deriving DecidableEq, Repr

/-- The file-static variables of `decoration.cpp`. -/
structure Globals where
  g_sDecoCount : Int
  g_shadowSize : Int
  g_shadowStrength : Int
  g_shadowColor : QColor
  g_sShadow : Option DecorationShadow
  deriving DecidableEq, Repr

/-- Static initialisation: no instance, no shadow. -/
def Globals.initial : Globals :=
  { g_sDecoCount := 0, g_shadowSize := 0, g_shadowStrength := 0,
    g_shadowColor := Qt.black, g_sShadow := none }

/-- Body of the constructor `Decoration::Decoration`: `++g_sDecoCount`. -/
def construct (g : Globals) : Globals :=
  { g with g_sDecoCount := g.g_sDecoCount + 1 }

/-- Body of the destructor `Decoration::~Decoration`:
`if (--g_sDecoCount == 0) g_sShadow.reset();`. -/
def destroy (g : Globals) : Globals :=
  let g1 := { g with g_sDecoCount := g.g_sDecoCount - 1 }
  if g1.g_sDecoCount = 0 then { g1 with g_sShadow := none } else g1

/-- The shadow object assembled inside the `if (!g_sShadow)` block of
`updateShadow`, for shadow size `shadowSize` and the caller's frame radius. -/
def buildShadow (shadowSize m_frameRadius : Int) : DecorationShadow :=
  let shadowOverlap := m_frameRadius
  let shadowOffset := Int.tdiv shadowOverlap 2
  { padding :=
      ⟨shadowSize - shadowOverlap,
       shadowSize - shadowOffset - shadowOverlap,
       shadowSize - shadowOverlap,
       shadowSize - shadowOverlap⟩
    innerShadowRect := QRect.mk4 shadowSize shadowSize 1 1
    shadow :=
      { size := ⟨2 * shadowSize, 2 * shadowSize⟩
        innerRect :=
          ⟨shadowSize - shadowOverlap, shadowSize - shadowOffset - shadowOverlap,
           2 * shadowOverlap, shadowOffset + 2 * shadowOverlap⟩ } }

/-- The method `Decoration::updateShadow` run by an instance whose frame radius is
`m_frameRadius`.  Returns the new globals and the pointer handed to
`setShadow` (the shadow assigned to the calling instance). -/
def updateShadow (g : Globals) (m_frameRadius : Int) :
    Globals × Option DecorationShadow :=
  let g1 :=
    match g.g_sShadow with
    | none =>
      let g2 := { g with g_shadowSize := 90, g_shadowStrength := 35,
                         g_shadowColor := Qt.black }
      { g2 with g_sShadow := some (buildShadow g2.g_shadowSize m_frameRadius) }
    | some _ => g
  (g1, g1.g_sShadow)

/-- One lifecycle operation on the process-wide state. -/
inductive Op where
  | construct
  | updateShadow (m_frameRadius : Int)
  | destroy
  deriving DecidableEq, Repr

/-- Effect of one operation on the globals. -/
def step (g : Globals) : Op → Globals
  | .construct => construct g
  | .updateShadow r => (updateShadow g r).1
  | .destroy => destroy g

/-- Effect of a sequence of operations, left to right. -/
def run (g : Globals) : List Op → Globals
  | [] => g
  | op :: ops => run (step g op) ops

/-- Whether operation `op`, executed in state `g`, enters the
`if (!g_sShadow)` block, that is, builds a new shadow object. -/
def buildsShadow (g : Globals) : Op → Bool
  | .updateShadow _ => g.g_sShadow.isNone
  | _ => false

/-- Number of shadow objects built while running `ops` from `g`. -/
def builds (g : Globals) : List Op → Nat
  | [] => 0
  | op :: ops => (if buildsShadow g op then 1 else 0) + builds (step g op) ops

/-- The operations `ops`, run from `g`, lie within one stretch of liveness:
between any two consecutive operations at least one instance is alive.
(The state before the first and after the last operation is unconstrained,
so a maximal stretch - from the construction that raises the count from 0
up to and including the destruction that brings it back to 0 - qualifies.) -/
def aliveBetween (g : Globals) : List Op → Prop
  | [] => True
  | [_] => True
  | op :: op2 :: ops => 0 < (step g op).g_sDecoCount ∧ aliveBetween (step g op) (op2 :: ops)

/-- An operation can be issued in state `g`: construction always, the two
member functions only on behalf of a live instance. -/
def enabled (g : Globals) : Op → Prop
  | .construct => True
  | .updateShadow _ => 0 < g.g_sDecoCount
  | .destroy => 0 < g.g_sDecoCount

/-- Every operation of the sequence is enabled when it is issued. -/
def valid (g : Globals) : List Op → Prop
  | [] => True
  | op :: ops => enabled g op ∧ valid (step g op) ops

instance (g : Globals) (op : Op) : Decidable (enabled g op) := by
  cases op <;> unfold enabled <;> infer_instance

instance decValid : (g : Globals) → (ops : List Op) → Decidable (valid g ops)
  | _, [] => isTrue trivial
  | g, op :: ops =>
    have := decValid (step g op) ops
    inferInstanceAs (Decidable (enabled g op ∧ valid (step g op) ops))

instance decAliveBetween : (g : Globals) → (ops : List Op) → Decidable (aliveBetween g ops)
  | _, [] => isTrue trivial
  | _, [_] => isTrue trivial
  | g, op :: op2 :: ops =>
    have := decAliveBetween (step g op) (op2 :: ops)
    inferInstanceAs
      (Decidable (0 < (step g op).g_sDecoCount ∧ aliveBetween (step g op) (op2 :: ops)))

/-! ## Host window, theme settings and toolkit services -/

/-- The key-value store `QSettings(UserScope, "cutefishos", "theme")`: the two
keys the decoration reads, each possibly absent. -/
structure ThemeSettings where
  DarkMode : Option Bool
  PixelRatio : Option ℚ

/-- What the decoration and its buttons read from the host's
`KDecoration3::DecoratedWindow`. -/
structure DecoratedWindow where
  isMinimizeable : Bool
  isMaximizeable : Bool
  isCloseable : Bool
  isActive : Bool
  width : Int
  caption : String
  deriving DecidableEq, Repr

/-- A pixmap is either the null pixmap `QPixmap()` or the pixmap of the image
an image reader for `file` decodes at `scaledSize`. -/
inductive QPixmap where
  | null
  | fromImage (file : String) (scaledSize : QSize)
  deriving DecidableEq, Repr

/-- Rounding `qRound(double)` of the toolkit: half away from zero. -/
def qRound (d : ℚ) : Int := if 0 ≤ d then truncToInt (d + 1 / 2) else truncToInt (d - 1 / 2)

/-- The toolkit's `operator*(const QSize &, qreal)`: both extents are rounded. -/
def QSize.scale (s : QSize) (c : ℚ) : QSize := ⟨qRound (s.width * c), qRound (s.height * c)⟩

/-- Members of `Cutefish::Decoration` used by the embedded functions.  The class
declaration (`decoration.h`) is not part of the sources at hand: the base
title-bar height and the six palette colours are carried as fields whose values
are left open, and the frame radius is held as an integer (`updateShadow`
reads it into `const int shadowOverlap`). -/
structure Decoration where
  m_titleBarHeight : Int
  m_titleBarBgColor : QColor
  m_titleBarFgColor : QColor
  m_unfocusedFgColor : QColor
  m_titleBarBgDarkColor : QColor
  m_titleBarFgDarkColor : QColor
  m_unfocusedFgDarkColor : QColor
  m_frameRadius : Int
  m_devicePixelRatio : ℚ
  m_closeBtnPixmap : QPixmap
  m_maximizeBtnPixmap : QPixmap
  m_minimizeBtnPixmap : QPixmap
  m_restoreBtnPixmap : QPixmap
  titleBar : QRect
  borders : QMargins
  resizeOnlyBorders : QMargins
  shadow : Option DecorationShadow

/-- The method `Decoration::darkMode`: `settings.value("DarkMode", false).toBool()` on a
freshly opened store. -/
def darkMode (s : ThemeSettings) : Bool := s.DarkMode.getD false

/-- The read `m_settings->value("PixelRatio", 1.0).toReal()`. -/
def readPixelRatio (s : ThemeSettings) : ℚ := s.PixelRatio.getD 1

/-- The method `Decoration::titleBarHeight`: `m_titleBarHeight * m_devicePixelRatio`
converted to `int`. -/
def titleBarHeight (d : Decoration) : Int :=
  truncToInt (d.m_titleBarHeight * d.m_devicePixelRatio)

/-- The method `Decoration::fromSvgToPixmap`; `canRead` is the answer of
`QImageReader(file).canRead()` for each resource path. -/
def fromSvgToPixmap (canRead : String → Bool) (d : Decoration) (file : String)
    (size : QSize) : QPixmap :=
  if canRead file then
    QPixmap.fromImage file (size.scale d.m_devicePixelRatio)
  else
    QPixmap.null

/-- The directory name chosen by `updateBtnPixmap`. -/
def themeDirName (s : ThemeSettings) : String := if darkMode s then "dark" else "light"

/-- The method `Decoration::updateBtnPixmap`. -/
def updateBtnPixmap (s : ThemeSettings) (canRead : String → Bool) (d : Decoration) :
    Decoration :=
  let size : Int := 24
  let dirName := themeDirName s
  let d1 := { d with
    m_closeBtnPixmap :=
      fromSvgToPixmap canRead d (":/images/" ++ dirName ++ "/close_normal.svg") ⟨size, size⟩ }
  let d2 := { d1 with
    m_maximizeBtnPixmap :=
      fromSvgToPixmap canRead d1 (":/images/" ++ dirName ++ "/maximize_normal.svg") ⟨size, size⟩ }
  let d3 := { d2 with
    m_minimizeBtnPixmap :=
      fromSvgToPixmap canRead d2 (":/images/" ++ dirName ++ "/minimize_normal.svg") ⟨size, size⟩ }
  { d3 with
    m_restoreBtnPixmap :=
      fromSvgToPixmap canRead d3 (":/images/" ++ dirName ++ "/restore_normal.svg") ⟨size, size⟩ }

/-- The method `Decoration::recalculateBorders`. -/
def recalculateBorders (d : Decoration) : Decoration :=
  { d with borders := ⟨0, titleBarHeight d, 0, 0⟩ }

/-- The method `Decoration::updateResizeBorders`. -/
def updateResizeBorders (d : Decoration) : Decoration :=
  { d with resizeOnlyBorders := ⟨5, 5, 5, 5⟩ }

/-- The method `Decoration::updateTitleBar`. -/
def updateTitleBar (c : DecoratedWindow) (d : Decoration) : Decoration :=
  { d with titleBar := QRect.mk4 0 0 c.width (titleBarHeight d) }

/-- The method `Decoration::reconfigure`, threading the file-static state through
`updateShadow`. -/
def reconfigure (g : Globals) (d : Decoration) : Globals × Decoration :=
  let d1 := recalculateBorders d
  let d2 := updateResizeBorders d1
  let r := updateShadow g d2.m_frameRadius
  (r.1, { d2 with shadow := r.2 })

/-- State changes of `Decoration::init` (signal connections aside; the button
groups created by `createButtons` live outside this record). -/
def init (s : ThemeSettings) (canRead : String → Bool) (c : DecoratedWindow)
    (g : Globals) (d : Decoration) : Globals × Decoration :=
  let d1 := { d with m_devicePixelRatio := readPixelRatio s }
  let d2 := { d1 with m_frameRadius := truncToInt (11 * d1.m_devicePixelRatio) }
  let r := reconfigure g d2
  let d3 := updateTitleBar c r.2
  let d4 := updateBtnPixmap s canRead d3
  let r2 := updateShadow r.1 d4.m_frameRadius
  (r2.1, { d4 with shadow := r2.2 })

/-- The handler connected in `init` to `QFileSystemWatcher::fileChanged`; `s` is
the store as `m_settings->sync()` finds it.  (Repaint requests, the button
groups' geometry and the re-adding of the watched path do not touch this
record.) -/
def fileChanged (s : ThemeSettings) (canRead : String → Bool) (c : DecoratedWindow)
    (g : Globals) (d : Decoration) : Globals × Decoration :=
  let d1 := { d with m_devicePixelRatio := readPixelRatio s }
  let d2 := updateBtnPixmap s canRead d1
  let d3 := updateTitleBar c d2
  reconfigure g d3

/-- The enumeration `KDecoration3::DecorationButtonType`. -/
inductive DecorationButtonType where
  | Menu
  | ApplicationMenu
  | OnAllDesktops
  | Minimize
  | Maximize
  | Close
  | ContextHelp
  | Shade
  | KeepBelow
  | KeepAbove
  | Spacer
  deriving DecidableEq, Repr

/-- The capability notifications of `DecoratedWindow` the constructor connects. -/
inductive WindowSignal where
  | minimizeableChanged
  | maximizeableChanged
  | closeableChanged
  deriving DecidableEq, Repr

/-- State of a `Button`: its type, the flags of the base class, its geometry
(`geometry().toRect()`) and the window signals connected to `setVisible`. -/
structure Button where
  type : DecorationButtonType
  visible : Bool
  hovered : Bool
  pressed : Bool
  checked : Bool
  geometry : QRect
  setVisibleOn : List WindowSignal
  deriving DecidableEq, Repr

/-- The slot `DecorationButton::setVisible`. -/
def Button.setVisible (b : Button) (v : Bool) : Button := { b with visible := v }

/-- The constructor `Button::Button`.  `base` is the object as the base-class
constructor is taken to leave it: visible, no transient flag set, null
geometry and no connection to `setVisible`. -/
def Button.new (type : DecorationButtonType) (c : DecoratedWindow) : Button :=
  let base : Button :=
    { type := type, visible := true, hovered := false, pressed := false,
      checked := false, geometry := QRect.mk4 0 0 0 0, setVisibleOn := [] }
  match type with
  | .Menu => base
  | .Minimize =>
    { base.setVisible c.isMinimizeable with setVisibleOn := [WindowSignal.minimizeableChanged] }
  | .Maximize =>
    { base.setVisible c.isMaximizeable with setVisibleOn := [WindowSignal.maximizeableChanged] }
  | .Close =>
    { base.setVisible c.isCloseable with setVisibleOn := [WindowSignal.closeableChanged] }
  | _ => base.setVisible false

/-- Delivery of one window notification carrying `value`: every slot connected
to that signal runs. -/
def Button.notify (b : Button) (sig : WindowSignal) (value : Bool) : Button :=
  if sig ∈ b.setVisibleOn then b.setVisible value else b

/-- Delivery of a sequence of notifications, in order. -/
def Button.deliver (b : Button) : List (WindowSignal × Bool) → Button
  | [] => b
  | (sig, value) :: rest => (b.notify sig value).deliver rest

/-- The reply `xcb_intern_atom_reply_t`, of which only `atom` is read. -/
structure InternAtomReply where
  atom : Nat
  deriving DecidableEq, Repr

/-- An XCB connection: what `xcb_intern_atom_reply` returns for a request
`(only_if_exists, name)`, absent when no reply is received. -/
structure XcbConnection where
  internAtomReply : Bool → String → Option InternAtomReply

/-- The interface `QPlatformNativeInterface`: the resource registered under
`"connection"`, possibly null. -/
structure PlatformNativeInterface where
  connection : Option XcbConnection

/-- The application environment `internAtom` queries. -/
structure GuiApplication where
  platformName : String
  platformNativeInterface : Option PlatformNativeInterface

/-- The constant `XCB_NONE`. -/
def XCB_NONE : Nat := 0

/-- The function `internAtom` of `x11shadow.cpp` (the branch compiled for the
toolkit's version 6); `name` is absent for a null pointer. -/
def internAtom (app : GuiApplication) (name : Option String) (only_if_exists : Bool) : Nat :=
  match name with
  | none => XCB_NONE
  | some nm =>
    if nm = "" then XCB_NONE
    else if app.platformName ≠ "xcb" then XCB_NONE
    else
      match app.platformNativeInterface with
      | none => XCB_NONE
      | some native =>
        match native.connection with
        | none => XCB_NONE
        | some connection =>
          match connection.internAtomReply only_if_exists nm with
          | none => XCB_NONE
          | some reply => reply.atom


/-! ## Reference values and sample inputs -/

/-- A sample host window: active, closeable and minimizeable, 800 wide. -/
def sampleWindow : DecoratedWindow :=
  { isMinimizeable := true, isMaximizeable := false, isCloseable := true,
    isActive := true, width := 800, caption := "Terminal" }

/-- A sample decoration instance before `init`: base title-bar height 30 and a
palette of six distinct colours. -/
def sampleDecoration : Decoration :=
  { m_titleBarHeight := 30
    m_titleBarBgColor := ⟨255, 255, 255, 255⟩
    m_titleBarFgColor := ⟨56, 56, 56, 255⟩
    m_unfocusedFgColor := ⟨127, 127, 127, 255⟩
    m_titleBarBgDarkColor := ⟨44, 44, 45, 255⟩
    m_titleBarFgDarkColor := ⟨202, 203, 206, 255⟩
    m_unfocusedFgDarkColor := ⟨112, 112, 112, 255⟩
    m_frameRadius := 0
    m_devicePixelRatio := 1
    m_closeBtnPixmap := QPixmap.null
    m_maximizeBtnPixmap := QPixmap.null
    m_minimizeBtnPixmap := QPixmap.null
    m_restoreBtnPixmap := QPixmap.null
    titleBar := QRect.mk4 0 0 0 0
    borders := ⟨0, 0, 0, 0⟩
    resizeOnlyBorders := ⟨0, 0, 0, 0⟩
    shadow := none }

/-- Sample store: dark theme, pixel ratio 2. -/
def sampleDarkSettings : ThemeSettings := { DarkMode := some true, PixelRatio := some 2 }

/-- Sample store: no key set, so light theme and pixel ratio 1. -/
def sampleEmptySettings : ThemeSettings := { DarkMode := none, PixelRatio := none }

/-- Sample resource set in which only the dark close icon is missing. -/
def sampleCanRead (file : String) : Bool := file != ":/images/dark/close_normal.svg"

/-- Sample application running on the xcb platform whose server answers every
request with atom 377. -/
def sampleXcbApp : GuiApplication :=
  { platformName := "xcb"
    platformNativeInterface :=
      some { connection := some { internAtomReply := fun _ _ => some ⟨377⟩ } } }

/-- Sample application on another platform. -/
def sampleWaylandApp : GuiApplication :=
  { platformName := "wayland", platformNativeInterface := none }


/-! ## Button groups and their layout (`Decoration::updateButtonsGeometry`) -/

/-- Top edge, `QRect::top()`. -/
def QRect.top (r : QRect) : Int := r.y1

/-- Bottom edge, `QRect::bottom()`. -/
def QRect.bottom (r : QRect) : Int := r.y2

/-- State of a `KDecoration3::DecorationButtonGroup`: its buttons in order, its
geometry (position and size) and the spacing between buttons.  Coordinates
are whole pixels. -/
structure DecorationButtonGroup where
  buttons : List Button
  geometry : QRectF
  spacing : Int
  deriving DecidableEq, Repr

/-- Width the group layout computes: the widths of the visible buttons, plus the
spacing after every visible button that is not the last of the list. -/
def layoutWidth (spacing : Int) : List Button → Int
  | [] => 0
  | b :: rest =>
    (if b.visible then b.geometry.width + (if rest.isEmpty then 0 else spacing) else 0)
      + layoutWidth spacing rest

/-- Height the group layout computes: the largest height of a visible button,
0 if none is visible. -/
def layoutHeight : List Button → Int
  | [] => 0
  | b :: rest => if b.visible then max b.geometry.height (layoutHeight rest) else layoutHeight rest

/-- Second pass of the group layout: every visible button is moved to
`(position, y)` keeping its size, and `position` advances by its width plus
the spacing. -/
def positionButtons (spacing y : Int) : Int → List Button → List Button
  | _, [] => []
  | position, b :: rest =>
    if b.visible then
      { b with geometry := QRect.mk4 position y b.geometry.width b.geometry.height }
        :: positionButtons spacing y (position + b.geometry.width + spacing) rest
    else
      b :: positionButtons spacing y position rest

/-- The group's relayout (`DecorationButtonGroup::Private::updateLayout` of the host
library): nothing for an empty group; otherwise the group's size is recomputed
from its buttons and the visible buttons are lined up from the group's
top-left corner. -/
def DecorationButtonGroup.updateLayout (g : DecorationButtonGroup) : DecorationButtonGroup :=
  if g.buttons.isEmpty then g
  else
    { g with
      geometry :=
        ⟨g.geometry.x, g.geometry.y, layoutWidth g.spacing g.buttons, layoutHeight g.buttons⟩
      buttons := positionButtons g.spacing g.geometry.y g.geometry.x g.buttons }

/-- The setter `DecorationButtonGroup::setPos`: no effect when the top-left corner
is already `pos`, otherwise the group is moved and laid out again. -/
def DecorationButtonGroup.setPos (g : DecorationButtonGroup) (pos : QPoint) :
    DecorationButtonGroup :=
  if g.geometry.x = pos.x ∧ g.geometry.y = pos.y then g
  else
    DecorationButtonGroup.updateLayout
      { g with geometry := ⟨pos.x, pos.y, g.geometry.width, g.geometry.height⟩ }

/-- The setter `DecorationButtonGroup::setSpacing`: no effect when the spacing is
already `spacing`, otherwise it is stored and the group is laid out again. -/
def DecorationButtonGroup.setSpacing (g : DecorationButtonGroup) (spacing : Int) :
    DecorationButtonGroup :=
  if g.spacing = spacing then g
  else DecorationButtonGroup.updateLayout { g with spacing := spacing }

/-- The call `button->setGeometry(rect)` on the `i`-th button of the group: no
effect when the button already has that geometry, otherwise the geometry is
stored and the button's `geometryChanged` notification makes the group lay
itself out again. -/
def DecorationButtonGroup.setButtonGeometry (g : DecorationButtonGroup) (i : Nat)
    (rect : QRect) : DecorationButtonGroup :=
  match g.buttons[i]? with
  | none => g
  | some b =>
    if b.geometry = rect then g
    else
      DecorationButtonGroup.updateLayout
        { g with buttons := g.buttons.set i { b with geometry := rect } }

/-- The body of the `foreach` loop of `updateButtonsGeometry` applied to the
buttons of one group in order (the loop runs over the list of buttons as it
is when the loop starts). -/
def DecorationButtonGroup.setAllGeometry (g : DecorationButtonGroup) (rect : QRect) :
    DecorationButtonGroup :=
  (List.range g.buttons.length).foldl (fun acc i => acc.setButtonGeometry i rect) g

/-- The two button groups of a decoration, `m_leftButtons` and `m_rightButtons`. -/
structure ButtonGroups where
  m_leftButtons : DecorationButtonGroup
  m_rightButtons : DecorationButtonGroup
  deriving DecidableEq, Repr

/-- The method `Decoration::updateButtonsGeometry`; `W` is `size().width()`. -/
def updateButtonsGeometry (d : Decoration) (W : Int) (groups : ButtonGroups) : ButtonGroups :=
  let rightMargin : Int := 2
  let btnSpacing : Int := 8
  let rect := QRect.mk4 0 0 (titleBarHeight d) (titleBarHeight d)
  let left1 := groups.m_leftButtons.setAllGeometry rect
  let right1 := groups.m_rightButtons.setAllGeometry rect
  let left2 :=
    if ¬ left1.buttons.isEmpty then (left1.setPos ⟨0, 0⟩).setSpacing btnSpacing
    else left1
  let right2 :=
    if ¬ right1.buttons.isEmpty then
      let right1s := right1.setSpacing btnSpacing
      right1s.setPos ⟨W - right1s.geometry.width - rightMargin, 0⟩
    else right1
  { m_leftButtons := left2, m_rightButtons := right2 }

/-- A sample right-hand group as the host creates it for the sample window:
minimize, maximize (hidden, the window not being maximizeable) and close
buttons without geometry yet, no spacing. -/
def sampleRightGroup : DecorationButtonGroup :=
  { buttons := [Button.new DecorationButtonType.Minimize sampleWindow,
                Button.new DecorationButtonType.Maximize sampleWindow,
                Button.new DecorationButtonType.Close sampleWindow]
    geometry := ⟨0, 0, 0, 0⟩
    spacing := 0 }

/-- A sample left-hand group holding the menu button. -/
def sampleLeftGroup : DecorationButtonGroup :=
  { buttons := [Button.new DecorationButtonType.Menu sampleWindow]
    geometry := ⟨0, 0, 0, 0⟩
    spacing := 0 }

/-- An empty group placed at (7, 3) with spacing 5. -/
def sampleEmptyGroup : DecorationButtonGroup :=
  { buttons := [], geometry := ⟨7, 3, 0, 0⟩, spacing := 5 }


/-- The size `button->size()` of a button, the extent of its geometry. -/
def Button.size (b : Button) : QSize := ⟨b.geometry.width, b.geometry.height⟩


/-! ### Lemmas on the shadow state -/

theorem builds_of_stored (ops : List Op) :
    ∀ g : Globals, g.g_sShadow.isSome = true → aliveBetween g ops → builds g ops = 0 := by
  induction ops with
  | nil => intro g _ _; rfl
  | cons op ops ih =>
    intro g hs ha
    have hb : buildsShadow g op = false := by
      cases op <;> simp [buildsShadow]
      cases hg : g.g_sShadow <;> simp_all
    cases ops with
    | nil => simp [builds, hb]
    | cons op2 ops =>
      obtain ⟨hpos, ha2⟩ := ha
      have hs2 : (step g op).g_sShadow.isSome = true := by
        cases op with
        | construct => simpa [step, construct] using hs
        | updateShadow r =>
          cases hg : g.g_sShadow <;> simp_all [step, updateShadow]
        | destroy =>
          have hne : g.g_sDecoCount - 1 ≠ 0 := by
            have : (step g Op.destroy).g_sDecoCount = g.g_sDecoCount - 1 := by
              simp only [step, destroy]; split <;> rfl
            omega
          simpa [step, destroy, hne] using hs
      show (if buildsShadow g op then 1 else 0) + builds (step g op) (op2 :: ops) = 0
      rw [hb, ih (step g op) hs2 ha2]
      rfl

theorem builds_le_one (ops : List Op) :
    ∀ g : Globals, aliveBetween g ops → builds g ops ≤ 1 := by
  induction ops with
  | nil => intro g _; simp [builds]
  | cons op ops ih =>
    intro g ha
    have ha2 : aliveBetween (step g op) ops := by
      cases ops with
      | nil => trivial
      | cons op2 ops => exact ha.2
    by_cases hb : buildsShadow g op = true
    · have hs2 : (step g op).g_sShadow.isSome = true := by
        cases op with
        | updateShadow r =>
          cases hg : g.g_sShadow <;> simp_all [step, updateShadow, buildsShadow]
        | construct => simp [buildsShadow] at hb
        | destroy => simp [buildsShadow] at hb
      show (if buildsShadow g op then 1 else 0) + builds (step g op) ops ≤ 1
      rw [hb, builds_of_stored ops (step g op) hs2 ha2]
      decide
    · have := ih (step g op) ha2
      show (if buildsShadow g op then 1 else 0) + builds (step g op) ops ≤ 1
      rw [if_neg hb]
      omega

/-! ### Claims C1 and C2 -/

/-- C1: for every sequence of construct / updateShadow / destroy operations run
from the initial state, any stretch of it during which at least one instance
stays alive builds the shadow at most once. -/
theorem shadow_built_at_most_once (pre mid : List Op)
    (h : aliveBetween (run Globals.initial pre) mid) :
    builds (run Globals.initial pre) mid ≤ 1 :=
  builds_le_one mid _ h

/-- Witness for C1: two instances, three `updateShadow` calls and both
destructions form one stretch of liveness, entered after an earlier complete
stretch; the shadow is built exactly once in it. -/
theorem shadow_built_at_most_once_witness :
    aliveBetween (run Globals.initial [Op.construct, Op.updateShadow 11, Op.destroy])
        [Op.construct, Op.updateShadow 11, Op.construct, Op.updateShadow 22, Op.destroy,
         Op.updateShadow 11, Op.destroy] ∧
      builds (run Globals.initial [Op.construct, Op.updateShadow 11, Op.destroy])
        [Op.construct, Op.updateShadow 11, Op.construct, Op.updateShadow 22, Op.destroy,
         Op.updateShadow 11, Op.destroy] ≤ 1 ∧
      builds (run Globals.initial [Op.construct, Op.updateShadow 11, Op.destroy])
        [Op.construct, Op.updateShadow 11, Op.construct, Op.updateShadow 22, Op.destroy,
         Op.updateShadow 11, Op.destroy] = 1 :=
  ⟨by decide,
   shadow_built_at_most_once [Op.construct, Op.updateShadow 11, Op.destroy]
     [Op.construct, Op.updateShadow 11, Op.construct, Op.updateShadow 22, Op.destroy,
      Op.updateShadow 11, Op.destroy] (by decide),
   by decide⟩

theorem destroy_count (g : Globals) : (destroy g).g_sDecoCount = g.g_sDecoCount - 1 := by
  simp only [destroy]; split <;> rfl

theorem destroy_shadow_of_zero (g : Globals) (h : (destroy g).g_sDecoCount = 0) :
    (destroy g).g_sShadow = none := by
  have h0 : g.g_sDecoCount - 1 = 0 := by rw [← destroy_count]; exact h
  simp [destroy, h0]

theorem destroy_shadow_of_ne_zero (g : Globals) (h : (destroy g).g_sDecoCount ≠ 0) :
    (destroy g).g_sShadow = g.g_sShadow := by
  have h0 : g.g_sDecoCount - 1 ≠ 0 := by rw [← destroy_count]; exact h
  simp [destroy, h0]

theorem updateShadow_stores (g : Globals) (r : Int) :
    (updateShadow g r).1.g_sShadow.isSome = true ∧
      (updateShadow g r).1.g_sDecoCount = g.g_sDecoCount ∧
      (updateShadow g r).2 = (updateShadow g r).1.g_sShadow := by
  cases hg : g.g_sShadow <;> simp [updateShadow, hg]

theorem stored_implies_alive_from (ops : List Op) :
    ∀ g : Globals, 0 ≤ g.g_sDecoCount → (g.g_sShadow.isSome = true → 0 < g.g_sDecoCount) →
      valid g ops →
      0 ≤ (run g ops).g_sDecoCount ∧
        ((run g ops).g_sShadow.isSome = true → 0 < (run g ops).g_sDecoCount) := by
  induction ops with
  | nil => intro g h0 hs _; exact ⟨h0, hs⟩
  | cons op ops ih =>
    intro g h0 hs hv
    obtain ⟨hen, hv2⟩ := hv
    refine ih (step g op) ?_ ?_ hv2
    · cases op with
      | construct => simp only [step, construct]; omega
      | updateShadow r => simp only [step, (updateShadow_stores g r).2.1]; exact h0
      | destroy =>
        have hpos : 0 < g.g_sDecoCount := hen
        simp only [step, destroy_count]; omega
    · cases op with
      | construct => intro _; simp only [step, construct]; omega
      | updateShadow r =>
        intro _
        have hpos : 0 < g.g_sDecoCount := hen
        simp only [step, (updateShadow_stores g r).2.1]; exact hpos
      | destroy =>
        intro hsome
        have hpos : 0 < g.g_sDecoCount := hen
        by_cases hz : (destroy g).g_sDecoCount = 0
        · have := destroy_shadow_of_zero g hz
          simp [step, this] at hsome
        · have hc := destroy_count g
          simp only [step]
          omega

/-- C2: the stored shadow is released exactly when the last live instance is
destroyed.  A destruction that brings the count to 0 leaves no stored shadow;
a destruction that leaves the count above 0 leaves the stored shadow unchanged;
no other operation ever empties a stored shadow; and in every state reached
from the initial one by operations issued on behalf of live instances, a stored
shadow implies a positive count. -/
theorem shadow_released_with_last_instance :
    (∀ g : Globals, (destroy g).g_sDecoCount = 0 → (destroy g).g_sShadow = none) ∧
    (∀ g : Globals, 0 < (destroy g).g_sDecoCount → (destroy g).g_sShadow = g.g_sShadow) ∧
    (∀ (g : Globals) (op : Op), g.g_sShadow.isSome = true → (step g op).g_sShadow = none →
        op = Op.destroy ∧ (step g op).g_sDecoCount = 0) ∧
    (∀ ops : List Op, valid Globals.initial ops →
        (run Globals.initial ops).g_sShadow.isSome = true →
        0 < (run Globals.initial ops).g_sDecoCount) := by
  refine ⟨destroy_shadow_of_zero, ?_, ?_, ?_⟩
  · intro g h
    exact destroy_shadow_of_ne_zero g (by omega)
  · intro g op hs hnone
    cases op with
    | construct => simp [step, construct, hnone] at hs hnone; simp [hnone] at hs
    | updateShadow r =>
      have := (updateShadow_stores g r).1
      simp [step] at hnone
      simp [hnone] at this
    | destroy =>
      refine ⟨rfl, ?_⟩
      by_contra hne
      have := destroy_shadow_of_ne_zero g hne
      simp only [step] at hnone
      rw [this] at hnone
      simp [hnone] at hs
  · intro ops hv
    exact (stored_implies_alive_from ops Globals.initial (by decide) (by decide) hv).2

/-- Witness for C2, on the states reached after two constructions and one
`updateShadow`: destroying one instance keeps the shadow, destroying the second
one releases it. -/
theorem shadow_released_with_last_instance_witness :
    (destroy (run Globals.initial [Op.construct, Op.updateShadow 11])).g_sShadow = none ∧
    (destroy (run Globals.initial [Op.construct, Op.construct, Op.updateShadow 11])).g_sShadow =
      (run Globals.initial [Op.construct, Op.construct, Op.updateShadow 11]).g_sShadow ∧
    (run Globals.initial [Op.construct, Op.construct, Op.updateShadow 11]).g_sShadow.isSome
      = true ∧
    0 < (run Globals.initial [Op.construct, Op.construct, Op.updateShadow 11]).g_sDecoCount :=
  ⟨shadow_released_with_last_instance.1
     (run Globals.initial [Op.construct, Op.updateShadow 11]) (by decide),
   shadow_released_with_last_instance.2.1
     (run Globals.initial [Op.construct, Op.construct, Op.updateShadow 11]) (by decide),
   by decide,
   shadow_released_with_last_instance.2.2.2
     [Op.construct, Op.construct, Op.updateShadow 11] (by decide) (by decide)⟩

/-! ### Claim C3: button visibility -/

theorem deliver_setVisibleOn (evs : List (WindowSignal × Bool)) :
    ∀ b : Button, (b.deliver evs).setVisibleOn = b.setVisibleOn := by
  induction evs with
  | nil => intro b; rfl
  | cons ev evs ih =>
    intro b
    obtain ⟨sig, value⟩ := ev
    show ((b.notify sig value).deliver evs).setVisibleOn = b.setVisibleOn
    rw [ih]
    unfold Button.notify Button.setVisible
    split <;> rfl

theorem notify_visible_of_connected (b : Button) (sig : WindowSignal) (v : Bool)
    (h : b.setVisibleOn = [sig]) :
    (b.notify sig v).visible = v ∧
      ∀ other : WindowSignal, other ≠ sig → (b.notify other v).visible = b.visible := by
  constructor
  · simp [Button.notify, Button.setVisible, h]
  · intro other hne
    simp [Button.notify, h, hne]

/-- C3: for a button of type Minimize, Maximize or Close the visibility equals
the window's isMinimizeable / isMaximizeable / isCloseable flag right after
construction, and in any state reached by later notifications a matching
minimizeableChanged / maximizeableChanged / closeableChanged notification
carrying `v` makes it `v`, while a notification for either other capability
leaves it unchanged. -/
theorem button_visibility_mirrors_capability (c : DecoratedWindow)
    (evs : List (WindowSignal × Bool)) (v : Bool) :
    ((Button.new DecorationButtonType.Minimize c).visible = c.isMinimizeable ∧
      (((Button.new DecorationButtonType.Minimize c).deliver evs).notify
          WindowSignal.minimizeableChanged v).visible = v ∧
      (((Button.new DecorationButtonType.Minimize c).deliver evs).notify
          WindowSignal.maximizeableChanged v).visible =
        ((Button.new DecorationButtonType.Minimize c).deliver evs).visible ∧
      (((Button.new DecorationButtonType.Minimize c).deliver evs).notify
          WindowSignal.closeableChanged v).visible =
        ((Button.new DecorationButtonType.Minimize c).deliver evs).visible) ∧
    ((Button.new DecorationButtonType.Maximize c).visible = c.isMaximizeable ∧
      (((Button.new DecorationButtonType.Maximize c).deliver evs).notify
          WindowSignal.maximizeableChanged v).visible = v ∧
      (((Button.new DecorationButtonType.Maximize c).deliver evs).notify
          WindowSignal.minimizeableChanged v).visible =
        ((Button.new DecorationButtonType.Maximize c).deliver evs).visible ∧
      (((Button.new DecorationButtonType.Maximize c).deliver evs).notify
          WindowSignal.closeableChanged v).visible =
        ((Button.new DecorationButtonType.Maximize c).deliver evs).visible) ∧
    ((Button.new DecorationButtonType.Close c).visible = c.isCloseable ∧
      (((Button.new DecorationButtonType.Close c).deliver evs).notify
          WindowSignal.closeableChanged v).visible = v ∧
      (((Button.new DecorationButtonType.Close c).deliver evs).notify
          WindowSignal.minimizeableChanged v).visible =
        ((Button.new DecorationButtonType.Close c).deliver evs).visible ∧
      (((Button.new DecorationButtonType.Close c).deliver evs).notify
          WindowSignal.maximizeableChanged v).visible =
        ((Button.new DecorationButtonType.Close c).deliver evs).visible) := by
  have hmin := notify_visible_of_connected
    ((Button.new DecorationButtonType.Minimize c).deliver evs)
    WindowSignal.minimizeableChanged v (by rw [deliver_setVisibleOn]; rfl)
  have hmax := notify_visible_of_connected
    ((Button.new DecorationButtonType.Maximize c).deliver evs)
    WindowSignal.maximizeableChanged v (by rw [deliver_setVisibleOn]; rfl)
  have hclose := notify_visible_of_connected
    ((Button.new DecorationButtonType.Close c).deliver evs)
    WindowSignal.closeableChanged v (by rw [deliver_setVisibleOn]; rfl)
  exact ⟨⟨rfl, hmin.1, hmin.2 _ (by decide), hmin.2 _ (by decide)⟩,
    ⟨rfl, hmax.1, hmax.2 _ (by decide), hmax.2 _ (by decide)⟩,
    ⟨rfl, hclose.1, hclose.2 _ (by decide), hclose.2 _ (by decide)⟩⟩

/-! ### Claim C4: caption truncation -/

theorem truncToInt_intCast (n : Int) : truncToInt (n : ℚ) = n := by
  unfold truncToInt
  split <;> simp

theorem reconfigure_keeps_members (g : Globals) (d : Decoration) :
    (reconfigure g d).2.m_closeBtnPixmap = d.m_closeBtnPixmap ∧
    (reconfigure g d).2.m_maximizeBtnPixmap = d.m_maximizeBtnPixmap ∧
    (reconfigure g d).2.m_minimizeBtnPixmap = d.m_minimizeBtnPixmap ∧
    (reconfigure g d).2.m_restoreBtnPixmap = d.m_restoreBtnPixmap ∧
    (reconfigure g d).2.m_devicePixelRatio = d.m_devicePixelRatio ∧
    (reconfigure g d).2.m_frameRadius = d.m_frameRadius ∧
    (reconfigure g d).2.m_titleBarHeight = d.m_titleBarHeight :=
  ⟨rfl, rfl, rfl, rfl, rfl, rfl, rfl⟩

theorem updateBtnPixmap_keeps_members (s : ThemeSettings) (canRead : String → Bool)
    (d : Decoration) :
    (updateBtnPixmap s canRead d).m_frameRadius = d.m_frameRadius ∧
    (updateBtnPixmap s canRead d).m_titleBarHeight = d.m_titleBarHeight ∧
    (updateBtnPixmap s canRead d).m_devicePixelRatio = d.m_devicePixelRatio :=
  ⟨rfl, rfl, rfl⟩

theorem updateTitleBar_keeps_members (c : DecoratedWindow) (d : Decoration) :
    (updateTitleBar c d).m_frameRadius = d.m_frameRadius ∧
    (updateTitleBar c d).m_titleBarHeight = d.m_titleBarHeight ∧
    (updateTitleBar c d).m_devicePixelRatio = d.m_devicePixelRatio :=
  ⟨rfl, rfl, rfl⟩

theorem fileChanged_members (s : ThemeSettings) (canRead : String → Bool)
    (c : DecoratedWindow) (g : Globals) (d : Decoration) :
    (fileChanged s canRead c g d).2.m_frameRadius = d.m_frameRadius ∧
    (fileChanged s canRead c g d).2.m_titleBarHeight = d.m_titleBarHeight ∧
    (fileChanged s canRead c g d).2.m_devicePixelRatio = readPixelRatio s := by
  unfold fileChanged
  refine ⟨?_, ?_, ?_⟩
  · rw [(reconfigure_keeps_members _ _).2.2.2.2.2.1, (updateTitleBar_keeps_members _ _).1,
      (updateBtnPixmap_keeps_members _ _ _).1]
  · rw [(reconfigure_keeps_members _ _).2.2.2.2.2.2, (updateTitleBar_keeps_members _ _).2.1,
      (updateBtnPixmap_keeps_members _ _ _).2.1]
  · rw [(reconfigure_keeps_members _ _).2.2.2.2.1, (updateTitleBar_keeps_members _ _).2.2,
      (updateBtnPixmap_keeps_members _ _ _).2.2]

theorem init_members (s : ThemeSettings) (canRead : String → Bool)
    (c : DecoratedWindow) (g : Globals) (d : Decoration) :
    (init s canRead c g d).2.m_frameRadius = truncToInt (11 * readPixelRatio s) ∧
    (init s canRead c g d).2.m_titleBarHeight = d.m_titleBarHeight ∧
    (init s canRead c g d).2.m_devicePixelRatio = readPixelRatio s := by
  unfold init
  refine ⟨?_, ?_, ?_⟩
  · show (updateBtnPixmap s canRead _).m_frameRadius = _
    rw [(updateBtnPixmap_keeps_members _ _ _).1, (updateTitleBar_keeps_members _ _).1,
      (reconfigure_keeps_members _ _).2.2.2.2.2.1]
  · show (updateBtnPixmap s canRead _).m_titleBarHeight = _
    rw [(updateBtnPixmap_keeps_members _ _ _).2.1, (updateTitleBar_keeps_members _ _).2.1,
      (reconfigure_keeps_members _ _).2.2.2.2.2.2]
  · show (updateBtnPixmap s canRead _).m_devicePixelRatio = _
    rw [(updateBtnPixmap_keeps_members _ _ _).2.2, (updateTitleBar_keeps_members _ _).2.2,
      (reconfigure_keeps_members _ _).2.2.2.2.1]

/-- C8: `fromSvgToPixmap` is total; it returns the null pixmap when the reader
cannot read the file and otherwise the pixmap of the image read at the scaled
size `size * m_devicePixelRatio`.  Consequently `updateBtnPixmap` always yields
four pixmaps, each of them either the null pixmap (its file being unreadable)
or the pixmap loaded from its file. -/
theorem unreadable_assets_degrade (canRead : String → Bool) (d : Decoration)
    (file : String) (size : QSize) (s : ThemeSettings) :
    (canRead file = false → fromSvgToPixmap canRead d file size = QPixmap.null) ∧
    (canRead file = true → fromSvgToPixmap canRead d file size =
        QPixmap.fromImage file (size.scale d.m_devicePixelRatio)) ∧
    (∀ pm ∈ [(updateBtnPixmap s canRead d).m_closeBtnPixmap,
             (updateBtnPixmap s canRead d).m_maximizeBtnPixmap,
             (updateBtnPixmap s canRead d).m_minimizeBtnPixmap,
             (updateBtnPixmap s canRead d).m_restoreBtnPixmap],
        pm = QPixmap.null ∨
          ∃ f : String, canRead f = true ∧
            pm = QPixmap.fromImage f (QSize.scale ⟨24, 24⟩ d.m_devicePixelRatio)) ∧
    ((canRead (":/images/" ++ themeDirName s ++ "/close_normal.svg") = false →
        (updateBtnPixmap s canRead d).m_closeBtnPixmap = QPixmap.null) ∧
      (canRead (":/images/" ++ themeDirName s ++ "/maximize_normal.svg") = false →
        (updateBtnPixmap s canRead d).m_maximizeBtnPixmap = QPixmap.null) ∧
      (canRead (":/images/" ++ themeDirName s ++ "/minimize_normal.svg") = false →
        (updateBtnPixmap s canRead d).m_minimizeBtnPixmap = QPixmap.null) ∧
      (canRead (":/images/" ++ themeDirName s ++ "/restore_normal.svg") = false →
        (updateBtnPixmap s canRead d).m_restoreBtnPixmap = QPixmap.null)) := by
  have key : ∀ (d1 : Decoration) (f : String) (sz : QSize),
      (canRead f = false → fromSvgToPixmap canRead d1 f sz = QPixmap.null) ∧
      (canRead f = true → fromSvgToPixmap canRead d1 f sz =
        QPixmap.fromImage f (sz.scale d1.m_devicePixelRatio)) := by
    intro d1 f sz
    constructor <;> intro hf <;> simp [fromSvgToPixmap, hf]
  have alt : ∀ (d1 : Decoration) (f : String), d1.m_devicePixelRatio = d.m_devicePixelRatio →
      (fromSvgToPixmap canRead d1 f ⟨24, 24⟩ = QPixmap.null ∨
        ∃ f2 : String, canRead f2 = true ∧ fromSvgToPixmap canRead d1 f ⟨24, 24⟩ =
          QPixmap.fromImage f2 (QSize.scale ⟨24, 24⟩ d.m_devicePixelRatio)) := by
    intro d1 f hd
    cases hf : canRead f
    · exact Or.inl ((key d1 f _).1 hf)
    · exact Or.inr ⟨f, hf, by rw [(key d1 f _).2 hf, hd]⟩
  refine ⟨(key d file size).1, (key d file size).2, ?_, ?_⟩
  · intro pm hpm
    simp only [List.mem_cons, List.mem_singleton, List.not_mem_nil, or_false] at hpm
    rcases hpm with h | h | h | h <;> rw [h]
    · exact alt _ _ rfl
    · exact alt _ _ rfl
    · exact alt _ _ rfl
    · exact alt _ _ rfl
  · exact ⟨(key _ _ _).1, (key _ _ _).1, (key _ _ _).1, (key _ _ _).1⟩

/-- Witness for C8: with the dark close icon unreadable, the close pixmap is
null while the restore pixmap is loaded at the scaled size for the sample
decoration's pixel ratio. -/
theorem unreadable_assets_degrade_witness :
    fromSvgToPixmap sampleCanRead sampleDecoration ":/images/dark/close_normal.svg" ⟨24, 24⟩ =
      QPixmap.null ∧
    fromSvgToPixmap sampleCanRead sampleDecoration ":/images/dark/restore_normal.svg" ⟨24, 24⟩ =
      QPixmap.fromImage ":/images/dark/restore_normal.svg"
        (QSize.scale ⟨24, 24⟩ sampleDecoration.m_devicePixelRatio) ∧
    (updateBtnPixmap sampleDarkSettings sampleCanRead sampleDecoration).m_closeBtnPixmap =
      QPixmap.null :=
  ⟨(unreadable_assets_degrade sampleCanRead sampleDecoration ":/images/dark/close_normal.svg"
      ⟨24, 24⟩ sampleDarkSettings).1 (by decide),
   (unreadable_assets_degrade sampleCanRead sampleDecoration ":/images/dark/restore_normal.svg"
      ⟨24, 24⟩ sampleDarkSettings).2.1 (by decide),
   (unreadable_assets_degrade sampleCanRead sampleDecoration ":/images/dark/close_normal.svg"
      ⟨24, 24⟩ sampleDarkSettings).2.2.2.1 (by decide)⟩

/-! ### Claim C6: caption colours -/

/-- C9: `internAtom` returns `XCB_NONE`, which is 0, whenever the name is null
or empty, the platform name is not "xcb", the native interface or the
connection is absent, or no reply is received; it returns the reply's atom in
the one remaining case, and every call falls under one of the two. -/
theorem internAtom_null_or_reply (app : GuiApplication) (name : Option String)
    (only_if_exists : Bool) :
    XCB_NONE = 0 ∧
    (name = none → internAtom app name only_if_exists = XCB_NONE) ∧
    (name = some "" → internAtom app name only_if_exists = XCB_NONE) ∧
    (app.platformName ≠ "xcb" → internAtom app name only_if_exists = XCB_NONE) ∧
    (app.platformNativeInterface = none → internAtom app name only_if_exists = XCB_NONE) ∧
    (∀ native, app.platformNativeInterface = some native → native.connection = none →
      internAtom app name only_if_exists = XCB_NONE) ∧
    (∀ native connection nm, app.platformNativeInterface = some native →
      native.connection = some connection → name = some nm →
      connection.internAtomReply only_if_exists nm = none →
      internAtom app name only_if_exists = XCB_NONE) ∧
    (∀ native connection nm reply, name = some nm → nm ≠ "" → app.platformName = "xcb" →
      app.platformNativeInterface = some native → native.connection = some connection →
      connection.internAtomReply only_if_exists nm = some reply →
      internAtom app name only_if_exists = reply.atom) ∧
    (internAtom app name only_if_exists = XCB_NONE ∨
      ∃ native connection nm reply, name = some nm ∧ nm ≠ "" ∧ app.platformName = "xcb" ∧
        app.platformNativeInterface = some native ∧ native.connection = some connection ∧
        connection.internAtomReply only_if_exists nm = some reply ∧
        internAtom app name only_if_exists = reply.atom) := by
  refine ⟨rfl, ?_, ?_, ?_, ?_, ?_, ?_, ?_, ?_⟩
  · intro h; subst h; rfl
  · intro h; subst h; rfl
  · intro h
    cases name with
    | none => rfl
    | some nm => simp [internAtom, h]
  · intro h
    cases name with
    | none => rfl
    | some nm =>
      simp only [internAtom, h]
      split
      · rfl
      · split <;> rfl
  · intro native hn hc
    cases name with
    | none => rfl
    | some nm =>
      simp only [internAtom, hn, hc]
      split
      · rfl
      · split <;> rfl
  · intro native connection nm hn hc hname hr
    subst hname
    simp only [internAtom, hn, hc, hr]
    split
    · rfl
    · split <;> rfl
  · intro native connection nm reply hname hne hp hn hc hr
    subst hname
    simp [internAtom, hne, hp, hn, hc, hr]
  · cases name with
    | none => exact Or.inl rfl
    | some nm =>
      by_cases hne : nm = ""
      · left; simp [internAtom, hne]
      · by_cases hp : app.platformName = "xcb"
        · cases hn : app.platformNativeInterface with
          | none => left; simp [internAtom, hne, hp, hn]
          | some native =>
            cases hc : native.connection with
            | none => left; simp [internAtom, hne, hp, hn, hc]
            | some connection =>
              cases hr : connection.internAtomReply only_if_exists nm with
              | none => left; simp [internAtom, hne, hp, hn, hc, hr]
              | some reply =>
                right
                exact ⟨native, connection, nm, reply, rfl, hne, hp, rfl, hc, hr,
                  by simp [internAtom, hne, hp, hn, hc, hr]⟩
        · left; simp [internAtom, hne, hp]

/-- Witness for C9: on the sample xcb application the lookup returns the
server's atom, on another platform it returns `XCB_NONE`. -/
theorem internAtom_null_or_reply_witness :
    internAtom sampleXcbApp (some "_KDE_NET_WM_SHADOW") false = 377 ∧
    internAtom sampleWaylandApp (some "_KDE_NET_WM_SHADOW") false = XCB_NONE ∧
    internAtom sampleXcbApp (some "") false = XCB_NONE :=
  ⟨(internAtom_null_or_reply sampleXcbApp (some "_KDE_NET_WM_SHADOW") false).2.2.2.2.2.2.2.1
      { connection := some { internAtomReply := fun _ _ => some ⟨377⟩ } }
      { internAtomReply := fun _ _ => some ⟨377⟩ } "_KDE_NET_WM_SHADOW" ⟨377⟩
      rfl (by decide) (by decide) rfl rfl rfl,
   (internAtom_null_or_reply sampleWaylandApp (some "_KDE_NET_WM_SHADOW") false).2.2.2.1
      (by decide),
   (internAtom_null_or_reply sampleXcbApp (some "") false).2.2.1 rfl⟩

/-! ### Claim C10: pixel-ratio-derived state after a settings change -/

/-- C10 (as the code behaves): the settings-file-change handler never writes
`m_frameRadius`.  After `init` under pixel ratio 1 the frame radius is 11; when
the store then changes to pixel ratio 2 and the handler runs, the instance
holds the new ratio 2 and its title-bar height is 30 * 2 = 60, but the frame
radius is still 11 and not 11 * 2 = 22. -/
theorem fileChanged_keeps_stale_frame_radius :
    (∀ (s : ThemeSettings) (canRead : String → Bool) (c : DecoratedWindow) (g : Globals)
        (d : Decoration),
        (fileChanged s canRead c g d).2.m_frameRadius = d.m_frameRadius) ∧
    (init sampleEmptySettings sampleCanRead sampleWindow (construct Globals.initial)
        sampleDecoration).2.m_frameRadius = 11 ∧
    (fileChanged sampleDarkSettings sampleCanRead sampleWindow
        (init sampleEmptySettings sampleCanRead sampleWindow (construct Globals.initial)
          sampleDecoration).1
        (init sampleEmptySettings sampleCanRead sampleWindow (construct Globals.initial)
          sampleDecoration).2).2.m_devicePixelRatio = 2 ∧
    titleBarHeight (fileChanged sampleDarkSettings sampleCanRead sampleWindow
        (init sampleEmptySettings sampleCanRead sampleWindow (construct Globals.initial)
          sampleDecoration).1
        (init sampleEmptySettings sampleCanRead sampleWindow (construct Globals.initial)
          sampleDecoration).2).2 = 60 ∧
    (fileChanged sampleDarkSettings sampleCanRead sampleWindow
        (init sampleEmptySettings sampleCanRead sampleWindow (construct Globals.initial)
          sampleDecoration).1
        (init sampleEmptySettings sampleCanRead sampleWindow (construct Globals.initial)
          sampleDecoration).2).2.m_frameRadius = 11 ∧
    truncToInt (11 * readPixelRatio sampleDarkSettings) = 22 := by
  have e11 : truncToInt (11 * readPixelRatio sampleEmptySettings) = 11 := by
    have : (11 : ℚ) * readPixelRatio sampleEmptySettings = ((11 : Int) : ℚ) := by
      simp [readPixelRatio, sampleEmptySettings]
    rw [this, truncToInt_intCast]
  have e22 : truncToInt (11 * readPixelRatio sampleDarkSettings) = 22 := by
    have : (11 : ℚ) * readPixelRatio sampleDarkSettings = ((22 : Int) : ℚ) := by
      simp [readPixelRatio, sampleDarkSettings]; norm_num
    rw [this, truncToInt_intCast]
  have e60 : truncToInt (((30 : Int) : ℚ) * readPixelRatio sampleDarkSettings) = 60 := by
    have : ((30 : Int) : ℚ) * readPixelRatio sampleDarkSettings = ((60 : Int) : ℚ) := by
      simp [readPixelRatio, sampleDarkSettings]; norm_num
    rw [this, truncToInt_intCast]
  have hinit := init_members sampleEmptySettings sampleCanRead sampleWindow
    (construct Globals.initial) sampleDecoration
  have hfc := fileChanged_members sampleDarkSettings sampleCanRead sampleWindow
    (init sampleEmptySettings sampleCanRead sampleWindow (construct Globals.initial)
      sampleDecoration).1
    (init sampleEmptySettings sampleCanRead sampleWindow (construct Globals.initial)
      sampleDecoration).2
  refine ⟨fun s canRead c g d => (fileChanged_members s canRead c g d).1,
    hinit.1.trans e11, ?_, ?_, ?_, e22⟩
  · rw [hfc.2.2]; rfl
  · unfold titleBarHeight
    rw [hfc.2.1, hfc.2.2, hinit.2.1]
    exact e60
  · rw [hfc.1, hinit.1]; exact e11

/-! ### Claim C11: shadow geometry -/

theorem updateShadow_builds (g : Globals) (r : Int) (h : g.g_sShadow = none) :
    (updateShadow g r).2 = some (buildShadow 90 r) := by
  simp [updateShadow, h]

/-- C11: when `updateShadow` builds the shadow for an integer frame radius
`r >= 0`, with shadow size 90, overlap `r` and offset `o = r / 2`, the image is
180 x 180, its punched-out inner rectangle is
`(x, y, width, height) = (90 - r, 90 - o - r, 2 r, o + 2 r)`, and the padding
`(90 - r, 90 - o - r, 90 - r, 90 - r)` is the distance from each image edge to
the matching edge of that rectangle: `left = x`, `top = y`,
`180 - right = x + width`, `180 - bottom = y + height`.  For `r >= 1` the 1 x 1
inner shadow rect at (90, 90) lies inside the inner rectangle. -/
theorem shadow_geometry_consistent (g : Globals) (r : Int) (hnone : g.g_sShadow = none)
    (hr : 0 ≤ r) :
    ∃ sh : DecorationShadow, (updateShadow g r).2 = some sh ∧
      sh.shadow.size = ⟨180, 180⟩ ∧
      sh.shadow.innerRect = ⟨90 - r, 90 - r / 2 - r, 2 * r, r / 2 + 2 * r⟩ ∧
      sh.padding = ⟨90 - r, 90 - r / 2 - r, 90 - r, 90 - r⟩ ∧
      sh.padding.left = sh.shadow.innerRect.x ∧
      sh.padding.top = sh.shadow.innerRect.y ∧
      180 - sh.padding.right = sh.shadow.innerRect.x + sh.shadow.innerRect.width ∧
      180 - sh.padding.bottom = sh.shadow.innerRect.y + sh.shadow.innerRect.height ∧
      sh.innerShadowRect = QRect.mk4 90 90 1 1 ∧
      sh.innerShadowRect.left = 90 ∧ sh.innerShadowRect.top = 90 ∧
      sh.innerShadowRect.width = 1 ∧ sh.innerShadowRect.height = 1 ∧
      (1 ≤ r →
        sh.shadow.innerRect.x ≤ sh.innerShadowRect.left ∧
        sh.innerShadowRect.right + 1 ≤ sh.shadow.innerRect.x + sh.shadow.innerRect.width ∧
        sh.shadow.innerRect.y ≤ sh.innerShadowRect.top ∧
        sh.innerShadowRect.bottom + 1 ≤
          sh.shadow.innerRect.y + sh.shadow.innerRect.height) := by
  have ho : Int.tdiv r 2 = r / 2 := Int.tdiv_eq_ediv hr (by decide)
  refine ⟨buildShadow 90 r, updateShadow_builds g r hnone, ?_⟩
  refine ⟨?_, ?_, ?_, ?_, ?_, ?_, ?_, ?_, ?_, ?_, ?_, ?_, ?_⟩ <;>
    simp only [buildShadow, ho, QRect.mk4, QRect.left, QRect.right, QRect.top, QRect.bottom,
      QRect.width, QRect.height] <;>
    first | omega | rfl

/-- Witness for C11: the first instance, with frame radius 11, builds a shadow
whose inner rectangle is (79, 74, 22, 27) and whose padding is
(79, 74, 79, 79). -/
theorem shadow_geometry_consistent_witness :
    ∃ sh : DecorationShadow, (updateShadow (construct Globals.initial) 11).2 = some sh ∧
      sh.shadow.innerRect = ⟨79, 74, 22, 27⟩ ∧ sh.padding = ⟨79, 74, 79, 79⟩ := by
  obtain ⟨sh, h1, _, h3, h4, _⟩ :=
    shadow_geometry_consistent (construct Globals.initial) 11 rfl (by decide)
  exact ⟨sh, h1, h3, h4⟩

/-! ### Lemmas on the button-group layout -/

theorem mk4_size (x y w h : Int) :
    (QRect.mk4 x y w h).width = w ∧ (QRect.mk4 x y w h).height = h := by
  simp only [QRect.mk4, QRect.width, QRect.height]
  constructor <;> omega

theorem positionButtons_length (spacing y : Int) (bs : List Button) :
    ∀ position : Int, (positionButtons spacing y position bs).length = bs.length := by
  induction bs with
  | nil => intro position; rfl
  | cons b rest ih =>
    intro position
    simp only [positionButtons]
    split <;> simp [ih]

theorem positionButtons_sizes (spacing y : Int) (bs : List Button) :
    ∀ position : Int,
      (positionButtons spacing y position bs).map Button.size = bs.map Button.size := by
  induction bs with
  | nil => intro position; rfl
  | cons b rest ih =>
    intro position
    simp only [positionButtons]
    split
    · simp only [List.map_cons, ih, Button.size, (mk4_size _ _ _ _).1, (mk4_size _ _ _ _).2]
    · simp only [List.map_cons, ih]

theorem layoutWidth_positionButtons (s spacing y : Int) (bs : List Button) :
    ∀ position : Int,
      layoutWidth s (positionButtons spacing y position bs) = layoutWidth s bs := by
  induction bs with
  | nil => intro position; rfl
  | cons b rest ih =>
    intro position
    have hempty : ∀ p : Int, (positionButtons spacing y p rest).isEmpty = rest.isEmpty := by
      intro p
      have := positionButtons_length spacing y rest p
      cases hr : rest with
      | nil => rfl
      | cons c cs =>
        rw [hr] at this
        cases hp : positionButtons spacing y p (c :: cs) with
        | nil => rw [hp] at this; simp at this
        | cons _ _ => rfl
    simp only [positionButtons]
    split
    · rename_i hv
      simp only [layoutWidth, hv, if_true, ih, hempty, (mk4_size _ _ _ _).1]
    · rename_i hv
      simp only [layoutWidth, hv, ih, hempty]

theorem updateLayout_facts (g : DecorationButtonGroup) :
    g.updateLayout.spacing = g.spacing ∧
    g.updateLayout.geometry.x = g.geometry.x ∧
    g.updateLayout.geometry.y = g.geometry.y ∧
    g.updateLayout.buttons.length = g.buttons.length ∧
    g.updateLayout.buttons.map Button.size = g.buttons.map Button.size ∧
    (g.buttons ≠ [] →
      g.updateLayout.geometry.width =
        layoutWidth g.updateLayout.spacing g.updateLayout.buttons) := by
  cases hb : g.buttons with
  | nil =>
    have : g.updateLayout = g := by simp [DecorationButtonGroup.updateLayout, hb]
    rw [this]
    simp [hb]
  | cons b rest =>
    have : g.updateLayout =
        { g with
          geometry :=
            ⟨g.geometry.x, g.geometry.y, layoutWidth g.spacing g.buttons,
              layoutHeight g.buttons⟩
          buttons := positionButtons g.spacing g.geometry.y g.geometry.x g.buttons } := by
      simp [DecorationButtonGroup.updateLayout, hb]
    rw [this, ← hb]
    refine ⟨rfl, rfl, rfl, ?_, ?_, ?_⟩
    · exact positionButtons_length _ _ _ _
    · exact positionButtons_sizes _ _ _ _
    · intro _
      exact (layoutWidth_positionButtons _ _ _ _ _).symm

theorem layoutWidth_updateLayout (g : DecorationButtonGroup) (s : Int) :
    layoutWidth s g.updateLayout.buttons = layoutWidth s g.buttons := by
  cases hb : g.buttons with
  | nil =>
    have : g.updateLayout = g := by simp [DecorationButtonGroup.updateLayout, hb]
    rw [this, hb]
  | cons b rest =>
    have : g.updateLayout.buttons =
        positionButtons g.spacing g.geometry.y g.geometry.x g.buttons := by
      simp [DecorationButtonGroup.updateLayout, hb]
    rw [this, layoutWidth_positionButtons, hb]

theorem updateLayout_width_current (g : DecorationButtonGroup)
    (h : g.buttons = [] → g.geometry.width = layoutWidth g.spacing g.buttons) :
    g.updateLayout.geometry.width =
      layoutWidth g.updateLayout.spacing g.updateLayout.buttons := by
  by_cases hb : g.buttons = []
  · have : g.updateLayout = g := by simp [DecorationButtonGroup.updateLayout, hb]
    rw [this]
    exact h hb
  · exact (updateLayout_facts g).2.2.2.2.2 hb

theorem setPos_facts (g : DecorationButtonGroup) (pos : QPoint) :
    (g.setPos pos).geometry.x = pos.x ∧
    (g.setPos pos).geometry.y = pos.y ∧
    (g.setPos pos).spacing = g.spacing ∧
    (g.setPos pos).buttons.length = g.buttons.length ∧
    (g.setPos pos).buttons.map Button.size = g.buttons.map Button.size ∧
    (g.geometry.width = layoutWidth g.spacing g.buttons →
      (g.setPos pos).geometry.width =
        layoutWidth (g.setPos pos).spacing (g.setPos pos).buttons) := by
  unfold DecorationButtonGroup.setPos
  split
  · rename_i hc
    exact ⟨hc.1, hc.2, rfl, rfl, rfl, fun h => h⟩
  · have hf := updateLayout_facts
      { g with geometry := ⟨pos.x, pos.y, g.geometry.width, g.geometry.height⟩ }
    refine ⟨hf.2.1, hf.2.2.1, hf.1, hf.2.2.2.1, hf.2.2.2.2.1, ?_⟩
    intro h
    exact updateLayout_width_current _ (fun _ => h)

theorem setSpacing_facts (g : DecorationButtonGroup) (spacing : Int) :
    (g.setSpacing spacing).spacing = spacing ∧
    (g.setSpacing spacing).geometry.x = g.geometry.x ∧
    (g.setSpacing spacing).geometry.y = g.geometry.y ∧
    (g.setSpacing spacing).buttons.length = g.buttons.length ∧
    (g.setSpacing spacing).buttons.map Button.size = g.buttons.map Button.size ∧
    (g.geometry.width = layoutWidth g.spacing g.buttons →
      (g.setSpacing spacing).geometry.width =
        layoutWidth (g.setSpacing spacing).spacing (g.setSpacing spacing).buttons) := by
  unfold DecorationButtonGroup.setSpacing
  split
  · rename_i hc
    exact ⟨hc, rfl, rfl, rfl, rfl, fun h => h⟩
  · have hf := updateLayout_facts { g with spacing := spacing }
    refine ⟨hf.1, hf.2.1, hf.2.2.1, hf.2.2.2.1, hf.2.2.2.2.1, ?_⟩
    intro h
    refine updateLayout_width_current _ (fun hb => ?_)
    have hb2 : g.buttons = [] := hb
    show g.geometry.width = layoutWidth spacing g.buttons
    rw [h, hb2]
    rfl

theorem setButtonGeometry_facts (g : DecorationButtonGroup) (i : Nat) (rect : QRect) :
    (g.setButtonGeometry i rect).spacing = g.spacing ∧
    (g.setButtonGeometry i rect).geometry.x = g.geometry.x ∧
    (g.setButtonGeometry i rect).geometry.y = g.geometry.y ∧
    (g.setButtonGeometry i rect).buttons.length = g.buttons.length ∧
    (g.setButtonGeometry i rect).buttons.map Button.size =
      (g.buttons.map Button.size).set i ⟨rect.width, rect.height⟩ ∧
    (g.geometry.width = layoutWidth g.spacing g.buttons →
      (g.setButtonGeometry i rect).geometry.width =
        layoutWidth (g.setButtonGeometry i rect).spacing
          (g.setButtonGeometry i rect).buttons) := by
  cases hi : g.buttons[i]? with
  | none =>
    have e : g.setButtonGeometry i rect = g := by
      simp [DecorationButtonGroup.setButtonGeometry, hi]
    rw [e]
    refine ⟨rfl, rfl, rfl, rfl, ?_, fun h => h⟩
    have hlen : g.buttons.length ≤ i := by
      rcases Nat.lt_or_ge i g.buttons.length with hlt | hge
      · rw [List.getElem?_eq_getElem hlt] at hi; cases hi
      · exact hge
    rw [List.set_eq_of_length_le (by simpa using hlen)]
  | some b =>
    by_cases hc : b.geometry = rect
    · have e : g.setButtonGeometry i rect = g := by
        simp [DecorationButtonGroup.setButtonGeometry, hi, hc]
      rw [e]
      refine ⟨rfl, rfl, rfl, rfl, ?_, fun h => h⟩
      apply List.ext_getElem?
      intro j
      rw [List.getElem?_set]
      by_cases hij : i = j
      · subst hij
        have hlt : i < (g.buttons.map Button.size).length := by
          rcases Nat.lt_or_ge i g.buttons.length with hlt | hge
          · simpa using hlt
          · rw [List.getElem?_eq_none hge] at hi; cases hi
        rw [if_pos rfl, if_pos hlt, List.getElem?_map, hi]
        simp [Button.size, hc]
      · rw [if_neg hij]
    · have e : g.setButtonGeometry i rect =
          DecorationButtonGroup.updateLayout
            { g with buttons := g.buttons.set i { b with geometry := rect } } := by
        simp [DecorationButtonGroup.setButtonGeometry, hi, hc]
      rw [e]
      have hf := updateLayout_facts
        { g with buttons := g.buttons.set i { b with geometry := rect } }
      refine ⟨hf.1, hf.2.1, hf.2.2.1, ?_, ?_, ?_⟩
      · rw [hf.2.2.2.1]; simp
      · rw [hf.2.2.2.2.1]
        show (g.buttons.set i { b with geometry := rect }).map Button.size = _
        rw [List.map_set]
        rfl
      · intro _
        refine updateLayout_width_current _ (fun hb => ?_)
        exfalso
        have hb2 : g.buttons.set i { b with geometry := rect } = [] := hb
        have hlen := congrArg List.length hb2
        rw [List.length_set] at hlen
        have : g.buttons = [] := List.length_eq_zero.mp hlen
        rw [this] at hi
        cases hi

theorem setGeometry_prefix (g : DecorationButtonGroup) (rect : QRect) (k : Nat) :
    ((List.range k).foldl (fun acc i => acc.setButtonGeometry i rect) g).spacing = g.spacing ∧
    ((List.range k).foldl (fun acc i => acc.setButtonGeometry i rect) g).geometry.x
      = g.geometry.x ∧
    ((List.range k).foldl (fun acc i => acc.setButtonGeometry i rect) g).geometry.y
      = g.geometry.y ∧
    ((List.range k).foldl (fun acc i => acc.setButtonGeometry i rect) g).buttons.length
      = g.buttons.length ∧
    (g.geometry.width = layoutWidth g.spacing g.buttons →
      ((List.range k).foldl (fun acc i => acc.setButtonGeometry i rect) g).geometry.width =
        layoutWidth
          ((List.range k).foldl (fun acc i => acc.setButtonGeometry i rect) g).spacing
          ((List.range k).foldl (fun acc i => acc.setButtonGeometry i rect) g).buttons) ∧
    (∀ j : Nat, j < k → j < g.buttons.length →
      (((List.range k).foldl (fun acc i => acc.setButtonGeometry i rect) g).buttons.map
        Button.size)[j]? = some ⟨rect.width, rect.height⟩) := by
  induction k with
  | zero =>
    refine ⟨rfl, rfl, rfl, rfl, fun h => h, ?_⟩
    intro j hj
    omega
  | succ k ih =>
    rw [List.range_succ, List.foldl_append]
    generalize (List.range k).foldl (fun acc i => acc.setButtonGeometry i rect) g = gk at ih ⊢
    obtain ⟨h1, h2, h3, h4, h5, h6⟩ := ih
    have hf := setButtonGeometry_facts gk k rect
    simp only [List.foldl_cons, List.foldl_nil]
    refine ⟨hf.1.trans h1, hf.2.1.trans h2, hf.2.2.1.trans h3, hf.2.2.2.1.trans h4,
      fun h => hf.2.2.2.2.2 (h5 h), ?_⟩
    intro j hj hlen
    rw [hf.2.2.2.2.1, List.getElem?_set]
    by_cases hkj : k = j
    · subst hkj
      have : k < (gk.buttons.map Button.size).length := by
        rw [List.length_map, h4]; exact hlen
      rw [if_pos rfl, if_pos this]
    · rw [if_neg hkj]
      exact h6 j (by omega) hlen

theorem setAllGeometry_facts (g : DecorationButtonGroup) (rect : QRect) :
    (g.setAllGeometry rect).spacing = g.spacing ∧
    (g.setAllGeometry rect).geometry.x = g.geometry.x ∧
    (g.setAllGeometry rect).geometry.y = g.geometry.y ∧
    (g.setAllGeometry rect).buttons.length = g.buttons.length ∧
    (g.geometry.width = layoutWidth g.spacing g.buttons →
      (g.setAllGeometry rect).geometry.width =
        layoutWidth (g.setAllGeometry rect).spacing (g.setAllGeometry rect).buttons) ∧
    (∀ b ∈ (g.setAllGeometry rect).buttons, b.size = ⟨rect.width, rect.height⟩) := by
  obtain ⟨h1, h2, h3, h4, h5, h6⟩ := setGeometry_prefix g rect g.buttons.length
  refine ⟨h1, h2, h3, h4, h5, ?_⟩
  intro b hb
  obtain ⟨n, hn⟩ := List.mem_iff_getElem?.mp hb
  have hlt : n < g.buttons.length := by
    rcases Nat.lt_or_ge n (g.setAllGeometry rect).buttons.length with hlt | hge
    · have h4b : (g.setAllGeometry rect).buttons.length = g.buttons.length := h4
      omega
    · rw [List.getElem?_eq_none hge] at hn; cases hn
  have h6n := h6 n hlt hlt
  have hn2 : ((g.setAllGeometry rect).buttons.map Button.size)[n]? = some b.size := by
    rw [List.getElem?_map, hn]; rfl
  have h6b : ((g.setAllGeometry rect).buttons.map Button.size)[n]? =
      some ⟨rect.width, rect.height⟩ := h6n
  rw [hn2] at h6b
  exact Option.some.inj h6b

theorem sizes_of_map_eq (bs cs : List Button) (a : QSize)
    (h : cs.map Button.size = bs.map Button.size) (hall : ∀ b ∈ bs, b.size = a) :
    ∀ c ∈ cs, c.size = a := by
  intro c hc
  have hmem : c.size ∈ cs.map Button.size := List.mem_map_of_mem _ hc
  rw [h] at hmem
  obtain ⟨b, hb, hbc⟩ := List.mem_map.mp hmem
  rw [← hbc]
  exact hall b hb

theorem setAllGeometry_isEmpty (g : DecorationButtonGroup) (rect : QRect) :
    (g.setAllGeometry rect).buttons.isEmpty = g.buttons.isEmpty := by
  have h := (setAllGeometry_facts g rect).2.2.2.1
  cases hg : g.buttons with
  | nil =>
    rw [hg] at h
    rw [List.length_eq_zero.mp h]
  | cons b rest =>
    rw [hg] at h
    cases hs : (g.setAllGeometry rect).buttons with
    | nil => rw [hs] at h; simp at h
    | cons _ _ => rfl

theorem setAllGeometry_of_empty (g : DecorationButtonGroup) (rect : QRect)
    (h : g.buttons = []) : g.setAllGeometry rect = g := by
  simp [DecorationButtonGroup.setAllGeometry, h]

theorem updateButtonsGeometry_left (d : Decoration) (W : Int) (groups : ButtonGroups) :
    (groups.m_leftButtons.buttons = [] →
      (updateButtonsGeometry d W groups).m_leftButtons = groups.m_leftButtons) ∧
    (groups.m_leftButtons.buttons ≠ [] →
      (updateButtonsGeometry d W groups).m_leftButtons =
        ((groups.m_leftButtons.setAllGeometry
            (QRect.mk4 0 0 (titleBarHeight d) (titleBarHeight d))).setPos ⟨0, 0⟩).setSpacing
          8) := by
  have he := setAllGeometry_isEmpty groups.m_leftButtons
    (QRect.mk4 0 0 (titleBarHeight d) (titleBarHeight d))
  constructor
  · intro h
    have h1 := setAllGeometry_of_empty groups.m_leftButtons
      (QRect.mk4 0 0 (titleBarHeight d) (titleBarHeight d)) h
    simp [updateButtonsGeometry, h1, h]
  · intro h
    have h2 : groups.m_leftButtons.buttons.isEmpty = false := by
      cases hb : groups.m_leftButtons.buttons with
      | nil => exact absurd hb h
      | cons _ _ => rfl
    rw [h2] at he
    simp [updateButtonsGeometry, he]

theorem updateButtonsGeometry_right (d : Decoration) (W : Int) (groups : ButtonGroups) :
    (groups.m_rightButtons.buttons = [] →
      (updateButtonsGeometry d W groups).m_rightButtons = groups.m_rightButtons) ∧
    (groups.m_rightButtons.buttons ≠ [] →
      (updateButtonsGeometry d W groups).m_rightButtons =
        ((groups.m_rightButtons.setAllGeometry
            (QRect.mk4 0 0 (titleBarHeight d) (titleBarHeight d))).setSpacing 8).setPos
          ⟨W - ((groups.m_rightButtons.setAllGeometry
              (QRect.mk4 0 0 (titleBarHeight d) (titleBarHeight d))).setSpacing
                8).geometry.width - 2, 0⟩) := by
  have he := setAllGeometry_isEmpty groups.m_rightButtons
    (QRect.mk4 0 0 (titleBarHeight d) (titleBarHeight d))
  constructor
  · intro h
    have h1 := setAllGeometry_of_empty groups.m_rightButtons
      (QRect.mk4 0 0 (titleBarHeight d) (titleBarHeight d)) h
    simp [updateButtonsGeometry, h1, h]
  · intro h
    have h2 : groups.m_rightButtons.buttons.isEmpty = false := by
      cases hb : groups.m_rightButtons.buttons with
      | nil => exact absurd hb h
      | cons _ _ => rfl
    rw [h2] at he
    simp [updateButtonsGeometry, he]

theorem updateButtonsGeometry_sizes (d : Decoration) (W : Int) (groups : ButtonGroups) :
    (∀ b ∈ (updateButtonsGeometry d W groups).m_leftButtons.buttons,
      b.size = ⟨titleBarHeight d, titleBarHeight d⟩) ∧
    (∀ b ∈ (updateButtonsGeometry d W groups).m_rightButtons.buttons,
      b.size = ⟨titleBarHeight d, titleBarHeight d⟩) := by
  have hrect : (⟨(QRect.mk4 0 0 (titleBarHeight d) (titleBarHeight d)).width,
      (QRect.mk4 0 0 (titleBarHeight d) (titleBarHeight d)).height⟩ : QSize) =
      ⟨titleBarHeight d, titleBarHeight d⟩ := by
    rw [(mk4_size _ _ _ _).1, (mk4_size _ _ _ _).2]
  constructor
  · by_cases h : groups.m_leftButtons.buttons = []
    · rw [(updateButtonsGeometry_left d W groups).1 h, h]
      intro b hb
      cases hb
    · rw [(updateButtonsGeometry_left d W groups).2 h]
      have h0 := (setAllGeometry_facts groups.m_leftButtons
        (QRect.mk4 0 0 (titleBarHeight d) (titleBarHeight d))).2.2.2.2.2
      rw [hrect] at h0
      exact sizes_of_map_eq _ _ _ (setSpacing_facts _ _).2.2.2.2.1
        (sizes_of_map_eq _ _ _ (setPos_facts _ _).2.2.2.2.1 h0)
  · by_cases h : groups.m_rightButtons.buttons = []
    · rw [(updateButtonsGeometry_right d W groups).1 h, h]
      intro b hb
      cases hb
    · rw [(updateButtonsGeometry_right d W groups).2 h]
      have h0 := (setAllGeometry_facts groups.m_rightButtons
        (QRect.mk4 0 0 (titleBarHeight d) (titleBarHeight d))).2.2.2.2.2
      rw [hrect] at h0
      exact sizes_of_map_eq _ _ _ (setPos_facts _ _).2.2.2.2.1
        (sizes_of_map_eq _ _ _ (setSpacing_facts _ _).2.2.2.2.1 h0)

/-! ### Claim C12: button layout -/

/-- C12: after `updateButtonsGeometry` every button of both groups has a square
geometry of side `titleBarHeight()`, and each group still has the buttons it
had.  A non-empty left group is at (0, 0) with spacing 8.  A non-empty right
group has spacing 8 and is at `y = 0`, `x = W - w - 2`, where `w` is the group
width read after the spacing was set; when the group's recorded width was
that of its layout on entry, `w` is the width the group ends up with, so its
right edge `x + width` is `W - 2`, two pixels inside the decoration's right
edge.  An empty group is left entirely unchanged, position and spacing
included. -/
theorem buttons_laid_out (d : Decoration) (W : Int) (groups : ButtonGroups) :
    (∀ b ∈ (updateButtonsGeometry d W groups).m_leftButtons.buttons ++
          (updateButtonsGeometry d W groups).m_rightButtons.buttons,
      b.geometry.width = titleBarHeight d ∧ b.geometry.height = titleBarHeight d) ∧
    (updateButtonsGeometry d W groups).m_leftButtons.buttons.length =
      groups.m_leftButtons.buttons.length ∧
    (updateButtonsGeometry d W groups).m_rightButtons.buttons.length =
      groups.m_rightButtons.buttons.length ∧
    (groups.m_leftButtons.buttons ≠ [] →
      (updateButtonsGeometry d W groups).m_leftButtons.geometry.x = 0 ∧
      (updateButtonsGeometry d W groups).m_leftButtons.geometry.y = 0 ∧
      (updateButtonsGeometry d W groups).m_leftButtons.spacing = 8) ∧
    (groups.m_rightButtons.buttons ≠ [] →
      (updateButtonsGeometry d W groups).m_rightButtons.spacing = 8 ∧
      (updateButtonsGeometry d W groups).m_rightButtons.geometry.y = 0 ∧
      (updateButtonsGeometry d W groups).m_rightButtons.geometry.x =
        W - ((groups.m_rightButtons.setAllGeometry
              (QRect.mk4 0 0 (titleBarHeight d) (titleBarHeight d))).setSpacing
                8).geometry.width - 2 ∧
      (groups.m_rightButtons.geometry.width =
          layoutWidth groups.m_rightButtons.spacing groups.m_rightButtons.buttons →
        (updateButtonsGeometry d W groups).m_rightButtons.geometry.x =
          W - (updateButtonsGeometry d W groups).m_rightButtons.geometry.width - 2 ∧
        (updateButtonsGeometry d W groups).m_rightButtons.geometry.x +
          (updateButtonsGeometry d W groups).m_rightButtons.geometry.width = W - 2)) ∧
    (groups.m_leftButtons.buttons = [] →
      (updateButtonsGeometry d W groups).m_leftButtons = groups.m_leftButtons) ∧
    (groups.m_rightButtons.buttons = [] →
      (updateButtonsGeometry d W groups).m_rightButtons = groups.m_rightButtons) := by
  have hsz := updateButtonsGeometry_sizes d W groups
  have hL := updateButtonsGeometry_left d W groups
  have hR := updateButtonsGeometry_right d W groups
  refine ⟨?_, ?_, ?_, ?_, ?_, hL.1, hR.1⟩
  · intro b hb
    have hb2 : b.size = ⟨titleBarHeight d, titleBarHeight d⟩ := by
      rcases List.mem_append.mp hb with h | h
      · exact hsz.1 b h
      · exact hsz.2 b h
    exact ⟨congrArg QSize.width hb2, congrArg QSize.height hb2⟩
  · by_cases h : groups.m_leftButtons.buttons = []
    · rw [hL.1 h]
    · rw [hL.2 h, (setSpacing_facts _ _).2.2.2.1, (setPos_facts _ _).2.2.2.1,
        (setAllGeometry_facts _ _).2.2.2.1]
  · by_cases h : groups.m_rightButtons.buttons = []
    · rw [hR.1 h]
    · rw [hR.2 h, (setPos_facts _ _).2.2.2.1, (setSpacing_facts _ _).2.2.2.1,
        (setAllGeometry_facts _ _).2.2.2.1]
  · intro h
    rw [hL.2 h]
    refine ⟨?_, ?_, (setSpacing_facts _ _).1⟩
    · rw [(setSpacing_facts _ _).2.1, (setPos_facts _ _).1]
    · rw [(setSpacing_facts _ _).2.2.1, (setPos_facts _ _).2.1]
  · intro h
    rw [hR.2 h]
    refine ⟨?_, (setPos_facts _ _).2.1, (setPos_facts _ _).1, ?_⟩
    · rw [(setPos_facts _ _).2.2.1, (setSpacing_facts _ _).1]
    · intro hsync
      have h1 := (setAllGeometry_facts groups.m_rightButtons
        (QRect.mk4 0 0 (titleBarHeight d) (titleBarHeight d))).2.2.2.2.1 hsync
      have h2 := (setSpacing_facts _ 8).2.2.2.2.2 h1
      generalize (groups.m_rightButtons.setAllGeometry
        (QRect.mk4 0 0 (titleBarHeight d) (titleBarHeight d))).setSpacing 8 = g2 at h2 ⊢
      have hw : (g2.setPos ⟨W - g2.geometry.width - 2, 0⟩).geometry.width =
          g2.geometry.width := by
        unfold DecorationButtonGroup.setPos
        split
        · rfl
        · have hf := updateLayout_facts
            { g2 with geometry := ⟨W - g2.geometry.width - 2, 0, g2.geometry.width,
                g2.geometry.height⟩ }
          have hcur := updateLayout_width_current
            { g2 with geometry := ⟨W - g2.geometry.width - 2, 0, g2.geometry.width,
                g2.geometry.height⟩ } (fun _ => h2)
          rw [hcur, hf.1, h2]
          exact layoutWidth_updateLayout _ _
      have hx : (g2.setPos ⟨W - g2.geometry.width - 2, 0⟩).geometry.x =
          W - g2.geometry.width - 2 := (setPos_facts g2 ⟨W - g2.geometry.width - 2, 0⟩).1
      constructor
      · rw [hx, hw]
      · rw [hx, hw]; omega

/-- Witness for C12: the sample right-hand group (minimize, hidden maximize,
close) in an 800 wide decoration, next to an empty left-hand group. -/
theorem buttons_laid_out_witness :
    sampleRightGroup.buttons ≠ [] ∧
    sampleRightGroup.geometry.width =
      layoutWidth sampleRightGroup.spacing sampleRightGroup.buttons ∧
    (updateButtonsGeometry sampleDecoration 800
        ⟨sampleEmptyGroup, sampleRightGroup⟩).m_rightButtons.spacing = 8 ∧
    (updateButtonsGeometry sampleDecoration 800
        ⟨sampleEmptyGroup, sampleRightGroup⟩).m_rightButtons.geometry.x +
      (updateButtonsGeometry sampleDecoration 800
        ⟨sampleEmptyGroup, sampleRightGroup⟩).m_rightButtons.geometry.width = 800 - 2 ∧
    (updateButtonsGeometry sampleDecoration 800
        ⟨sampleEmptyGroup, sampleRightGroup⟩).m_leftButtons = sampleEmptyGroup :=
  ⟨by decide, by decide,
   ((buttons_laid_out sampleDecoration 800 ⟨sampleEmptyGroup, sampleRightGroup⟩).2.2.2.2.1
      (by decide)).1,
   (((buttons_laid_out sampleDecoration 800 ⟨sampleEmptyGroup, sampleRightGroup⟩).2.2.2.2.1
      (by decide)).2.2.2 (by decide)).2,
   (buttons_laid_out sampleDecoration 800 ⟨sampleEmptyGroup, sampleRightGroup⟩).2.2.2.2.2.1
      (by decide)⟩

end Cutefish
